import Mathlib

/-!
Verification of the SysTok clip-store gateway (`src/main.py`, `src/schemas.py`).

The store is MongoDB; we embed a collection as a list of documents and the
database as a total map from collection names to collections.  Machine
integers of the source are modelled as `Int` (Python ints are unbounded, and
Mongo `$inc` on 64-bit counters never overflows in the scenarios claimed).
Fallible endpoints return an `Except` response paired with the store state
after the request.
-/

namespace SysTok

/-- A document of the `systemclip` collection, as the endpoints read and write
it.  `_id` is the store-native ObjectId (canonical lowercase 24-hex string);
`id` is the optional externally supplied string identifier field stored on the
document itself; `updated_at` is the logical revision counter touched by
`$inc` (a Mongo `$inc` on a missing field behaves as on 0, so absence is
modelled by 0). -/
structure Doc where
  _id : String
  id : Option String
  title : String
  topic : String
  description : Option String
  video_url : String
  thumbnail_url : Option String
  tags : List String
  difficulty : Option String
  likes : Int
  bookmarks : Int
  author : Option String
  updated_at : Int
deriving Repr, DecidableEq

/-- The database: a total map from collection name to collection contents. -/
def Db : Type := String → List Doc

/-- Write one collection of the database, leaving the others alone. -/
def setDb (db : Db) (name : String) (coll : List Doc) : Db :=
  fun c => if c = name then coll else db c

/-- Lowercasing of a string, character by character, exactly as
`String.toLower` / Python `str.lower()` behave on the identifiers involved
(written by structural recursion over the character list so that concrete
instances evaluate). -/
def strToLower (s : String) : String :=
  ⟨s.data.map Char.toLower⟩

/-- `src/main.py` line 66: `_collection_name` lowercases the model class
name. -/
def _collection_name (modelClsName : String) : String :=
  strToLower modelClsName

/-- `bson.ObjectId(s)` on a `str` argument succeeds exactly when `s` is a
24-character hexadecimal string. -/
def isValidObjectId (s : String) : Bool :=
  s.length == 24 && s.toList.all (fun c => c.isDigit || ('a' ≤ c && c ≤ 'f') || ('A' ≤ c && c ≤ 'F'))

/-- Mongo `update_one(filter, update)`: update the FIRST document matching the
filter, returning `matched_count` (0 or 1) together with the collection after
the command. -/
def updateFirst (p : Doc → Bool) (f : Doc → Doc) : List Doc → Nat × List Doc
  | [] => (0, [])
  | d :: ds =>
    if p d then (1, f d :: ds)
    else
      let r := updateFirst p f ds
      (r.1, d :: r.2)

/-- The `$inc` document of the like endpoint (`src/main.py` lines 105/108):
increment `likes` by `delta` and `updated_at` by 1. -/
def incLikes (delta : Int) (d : Doc) : Doc :=
  { d with likes := d.likes + delta, updated_at := d.updated_at + 1 }

/-- The `$inc` document of the bookmark endpoint (`src/main.py` lines
125/127): increment `bookmarks` by `delta` and `updated_at` by 1. -/
def incBookmarks (delta : Int) (d : Doc) : Doc :=
  { d with bookmarks := d.bookmarks + delta, updated_at := d.updated_at + 1 }

/-- Filter `{"_id": ObjectId(cid)}`: ObjectId equality is on the underlying
bytes, so the query hex is compared in canonical lowercase form. -/
def oidMatch (cid : String) (d : Doc) : Bool :=
  d._id == strToLower cid

/-- Filter `{"id": cid}`: the fallback match on the stored string field. -/
def idFieldMatch (cid : String) (d : Doc) : Bool :=
  d.id == some cid

/-- Error taxonomy of the gateway (`HTTPException`s raised in
`src/main.py`; `validation` is the 4xx rejection FastAPI/pydantic produces
before the handler runs). -/
inductive ApiError where
  | validation (detail : String)
  | notFound (detail : String)
  | storeError (detail : String)
deriving Repr, DecidableEq

/-- HTTP status attached to each error kind. -/
def ApiError.status : ApiError → Nat
  | .validation _ => 422
  | .notFound _ => 404
  | .storeError _ => 500

/-- The `{"ok": true}` body returned by the like/bookmark endpoints. -/
structure OkResp where
  ok : Bool
deriving Repr, DecidableEq

/-- `src/main.py` lines 97-115, `like_clip`: resolve `clip_id` as an ObjectId
and match `_id`; if the parse fails, match the string field `id`; `$inc`
likes by `delta` and `updated_at` by 1 on the first match; 404 when
`matched_count == 0`.  Returns the response together with the store after the
request (a matched-0 update leaves the collection as it was). -/
def like_clip (clip_id : String) (delta : Int) (db : Db) :
    Except ApiError OkResp × Db :=
  let coll := db (_collection_name "Systemclip")
  let r :=
    if isValidObjectId clip_id then
      updateFirst (oidMatch clip_id) (incLikes delta) coll
    else
      updateFirst (idFieldMatch clip_id) (incLikes delta) coll
  if r.1 == 0 then
    (.error (.notFound "Clip not found"), setDb db (_collection_name "Systemclip") r.2)
  else
    (.ok { ok := true }, setDb db (_collection_name "Systemclip") r.2)

/-- `src/main.py` lines 117-134, `bookmark_clip`: same resolution strategy as
`like_clip`, incrementing `bookmarks` instead of `likes`. -/
def bookmark_clip (clip_id : String) (delta : Int) (db : Db) :
    Except ApiError OkResp × Db :=
  let coll := db (_collection_name "Systemclip")
  let r :=
    if isValidObjectId clip_id then
      updateFirst (oidMatch clip_id) (incBookmarks delta) coll
    else
      updateFirst (idFieldMatch clip_id) (incBookmarks delta) coll
  if r.1 == 0 then
    (.error (.notFound "Clip not found"), setDb db (_collection_name "Systemclip") r.2)
  else
    (.ok { ok := true }, setDb db (_collection_name "Systemclip") r.2)

/-! ### Swapping the two counters (for the like/bookmark equivalence) -/

/-- Exchange the `likes` and `bookmarks` counters of a document. -/
def swapCounters (d : Doc) : Doc :=
  { d with likes := d.bookmarks, bookmarks := d.likes }

/-- Exchange the two counters throughout the database. -/
def swapDb (db : Db) : Db :=
  fun c => (db c).map swapCounters

/-! ### Concrete fixtures used by the witnesses -/

/-- A single-collection database holding `coll` under `"systemclip"`. -/
def dbOf (coll : List Doc) : Db :=
  fun c => if c = "systemclip" then coll else []

/-- A clip stored with an externally supplied string identifier
`"clip-1"` on its `id` field. -/
def exampleDoc : Doc :=
  { _id := "64c13ab08edf48a008793cac", id := some "clip-1",
    title := "What is a Kernel?", topic := "OS", description := none,
    video_url := "http://example.com/v.mp4", thumbnail_url := none,
    tags := ["os"], difficulty := some "beginner", likes := 0,
    bookmarks := 0, author := some "SysTok", updated_at := 0 }

/-- A second clip with a different native identifier and no `id` field. -/
def exampleDoc2 : Doc :=
  { _id := "aaaaaaaaaaaaaaaaaaaaaaaa", id := none,
    title := "Page Tables in 60s", topic := "OS", description := none,
    video_url := "http://example.com/w.mp4", thumbnail_url := none,
    tags := ["memory"], difficulty := none, likes := 5,
    bookmarks := 2, author := none, updated_at := 7 }


/-- A validated clip payload: the `Systemclip` pydantic model of
`src/schemas.py` lines 42-56 after validation has succeeded. -/
structure Systemclip where
  title : String
  topic : String
  description : Option String
  video_url : String
  thumbnail_url : Option String
  tags : List String
  difficulty : Option String
  likes : Int
  bookmarks : Int
  author : Option String
deriving Repr, DecidableEq

/-- A raw JSON payload for `POST /api/clips`, before validation: every field
may be absent. -/
structure RawPayload where
  title : Option String
  topic : Option String
  description : Option String
  video_url : Option String
  thumbnail_url : Option String
  tags : Option (List String)
  difficulty : Option String
  likes : Option Int
  bookmarks : Option Int
  author : Option String
deriving Repr, DecidableEq

/-- Does the first list occur at the start of the second?  (The character
level content of `String.startsWith`, written structurally so that concrete
instances evaluate.) -/
def matchesAtStart : List Char → List Char → Bool
  | [], _ => true
  | _ :: _, [] => false
  | a :: as, b :: bs => a == b && matchesAtStart as bs

/-- `String.startsWith`, structurally. -/
def strStartsWith (s pre : String) : Bool :=
  matchesAtStart pre.data s.data

/-- Pydantic `HttpUrl` acceptance, modelled as: an http or https scheme
followed by a non-empty remainder (host).  The exact URL grammar lives in the
pydantic library, outside this repository; the claims only need that some
strings are rejected and ordinary http(s) URLs are accepted. -/
def isValidHttpUrl (s : String) : Bool :=
  (strStartsWith s "http://" && s.length > 7) ||
  (strStartsWith s "https://" && s.length > 8)

/-- Validation of a raw payload against the `Systemclip` model
(`src/schemas.py` lines 42-56): `title`, `topic`, `video_url` required;
`video_url` (and `thumbnail_url` when present) must be a valid URL; `likes`
and `bookmarks` must be `ge=0`; `tags` defaults to `[]`, `likes` and
`bookmarks` default to 0. -/
def validateSystemclip (p : RawPayload) : Except String Systemclip :=
  match p.title with
  | none => .error "title: field required"
  | some title =>
  match p.topic with
  | none => .error "topic: field required"
  | some topic =>
  match p.video_url with
  | none => .error "video_url: field required"
  | some vurl =>
  if !isValidHttpUrl vurl then .error "video_url: invalid or missing URL scheme"
  else
  match p.thumbnail_url with
  | some turl =>
    if !isValidHttpUrl turl then .error "thumbnail_url: invalid or missing URL scheme"
    else if p.likes.getD 0 < 0 then .error "likes: ensure this value is greater than or equal to 0"
    else if p.bookmarks.getD 0 < 0 then .error "bookmarks: ensure this value is greater than or equal to 0"
    else .ok { title := title, topic := topic, description := p.description,
               video_url := vurl, thumbnail_url := some turl,
               tags := p.tags.getD [], difficulty := p.difficulty,
               likes := p.likes.getD 0, bookmarks := p.bookmarks.getD 0,
               author := p.author }
  | none =>
    if p.likes.getD 0 < 0 then .error "likes: ensure this value is greater than or equal to 0"
    else if p.bookmarks.getD 0 < 0 then .error "bookmarks: ensure this value is greater than or equal to 0"
    else .ok { title := title, topic := topic, description := p.description,
               video_url := vurl, thumbnail_url := none,
               tags := p.tags.getD [], difficulty := p.difficulty,
               likes := p.likes.getD 0, bookmarks := p.bookmarks.getD 0,
               author := p.author }

/-- Deterministic model of a freshly generated ObjectId for the `n`-th
insertion into a collection. -/
def genId (n : Nat) : String :=
  "oid" ++ toString n

/-- The stored document obtained from a validated payload: the insert writes
the model fields; there is no `id` string field and no `updated_at` field
(absence of `updated_at` behaves as 0 under `$inc`). -/
def toDoc (c : Systemclip) (oid : String) : Doc :=
  { _id := oid, id := none, title := c.title, topic := c.topic,
    description := c.description, video_url := c.video_url,
    thumbnail_url := c.thumbnail_url, tags := c.tags,
    difficulty := c.difficulty, likes := c.likes, bookmarks := c.bookmarks,
    author := c.author, updated_at := 0 }

/-- Modelled from the spec: `create_document` of the repository's
`database.py` is imported by `src/main.py` but the file is not under `src/`.
Per the spec, Create "assigns a store-generated identifier, persists the
document, returns the identifier". -/
def create_document (coll : List Doc) (c : Systemclip) : String × List Doc :=
  let newId := genId coll.length
  (newId, coll ++ [toDoc c newId])

/-- Response of a successful `POST /api/clips` (`status_code=201`,
body `{"id": inserted_id}`). -/
structure CreatedResp where
  status : Nat
  id : String
deriving Repr, DecidableEq

/-- `src/main.py` lines 89-95, `create_clip`: validate the payload against
`Systemclip` (FastAPI rejects an invalid one before the handler runs, leaving
the store untouched), then persist via `create_document` and answer 201 with
the generated identifier. -/
def create_clip (p : RawPayload) (db : Db) : Except ApiError CreatedResp × Db :=
  match validateSystemclip p with
  | .error e => (.error (.validation e), db)
  | .ok clip =>
    let r := create_document (db (_collection_name "Systemclip")) clip
    (.ok { status := 201, id := r.1 },
     setDb db (_collection_name "Systemclip") r.2)

/-- A `topic`/`tag` filter document as built by `list_clips`. -/
structure Filt where
  topic : Option String
  tag : Option String
deriving Repr, DecidableEq

/-- Whether a document matches the filter: `topic` is exact equality, `tag`
is `$in`-membership in the `tags` array. -/
def matchesFilt (f : Filt) (d : Doc) : Bool :=
  (match f.topic with
   | none => true
   | some t => d.topic == t) &&
  (match f.tag with
   | none => true
   | some g => d.tags.contains g)

/-- Modelled from the spec: `get_documents` of the repository's `database.py`
is imported by `src/main.py` but the file is not under `src/`.  Per the spec,
List returns the matching documents of the collection, "at most `limit`
items". -/
def get_documents (coll : List Doc) (f : Filt) (limit : Nat) : List Doc :=
  (coll.filter (matchesFilt f)).take limit

/-- A clip as returned by `GET /api/clips`: the stored document with the
internal `_id` popped. -/
structure ClipOut where
  id : Option String
  title : String
  topic : String
  description : Option String
  video_url : String
  thumbnail_url : Option String
  tags : List String
  difficulty : Option String
  likes : Int
  bookmarks : Int
  author : Option String
  updated_at : Int
deriving Repr, DecidableEq

/-- `d.pop("_id", None)` of `src/main.py` line 83: drop the internal store
identifier, keep every other field. -/
def sanitize (d : Doc) : ClipOut :=
  { id := d.id, title := d.title, topic := d.topic,
    description := d.description, video_url := d.video_url,
    thumbnail_url := d.thumbnail_url, tags := d.tags,
    difficulty := d.difficulty, likes := d.likes, bookmarks := d.bookmarks,
    author := d.author, updated_at := d.updated_at }

/-- Python truthiness of an `Optional[str]` query parameter: absent and the
empty string are falsy. -/
def truthy : Option String → Bool
  | none => false
  | some s => !s.isEmpty

/-- The default of the `limit` query parameter of `GET /api/clips`
(`src/main.py` line 72). -/
def list_clips_default_limit : Nat := 20

/-- `src/main.py` lines 71-87, `list_clips`: build the filter from the truthy
query parameters (`topic` exact, `tag` via `$in`), fetch at most `limit`
matching documents of the `systemclip` collection, and strip `_id` from each
result. -/
def list_clips (topic tag : Option String) (limit : Nat) (db : Db) :
    List ClipOut :=
  let f : Filt :=
    { topic := if truthy topic then topic else none,
      tag := if truthy tag then tag else none }
  (get_documents (db (_collection_name "Systemclip")) f limit).map sanitize

/-- Response of `POST /api/seed`: either `{"message": ...}` or
`{"inserted": n}`. -/
inductive SeedResp where
  | message (s : String)
  | inserted (n : Nat)
deriving Repr, DecidableEq

/-- The three sample payloads of `src/main.py` lines 144-181. -/
def samples : List Systemclip :=
  [ { title := "What is a Kernel?", topic := "OS",
      description := some "A quick primer on monolithic vs microkernels with visuals.",
      video_url := "https://samplelib.com/lib/preview/mp4/sample-5s.mp4",
      thumbnail_url := some "https://picsum.photos/seed/kernel/400/700",
      tags := ["kernel", "os", "linux"], difficulty := some "beginner",
      likes := 0, bookmarks := 0, author := some "SysTok" },
    { title := "Page Tables in 60s", topic := "OS",
      description := some "Virtual memory, TLBs and multi-level tables.",
      video_url := "https://samplelib.com/lib/preview/mp4/sample-5s.mp4",
      thumbnail_url := some "https://picsum.photos/seed/pagetable/400/700",
      tags := ["memory", "paging"], difficulty := some "intermediate",
      likes := 0, bookmarks := 0, author := some "SysTok" },
    { title := "Compiler vs Interpreter", topic := "Compilers",
      description := some "Key differences and when each is used.",
      video_url := "https://samplelib.com/lib/preview/mp4/sample-5s.mp4",
      thumbnail_url := some "https://picsum.photos/seed/compiler/400/700",
      tags := ["compiler", "interpreter"], difficulty := some "beginner",
      likes := 0, bookmarks := 0, author := some "SysTok" } ]

/-- The sample documents as `insert_many` stores them, each with a generated
ObjectId. -/
def sampleDocs (startIdx : Nat) : List Doc :=
  (samples.enumFrom startIdx).map (fun s => toDoc s.2 (genId s.1))

/-- `src/main.py` lines 137-183, `seed_clips`: if `count_documents({}) > 0`
answer `{"message": "Already seeded"}` and insert nothing; otherwise insert
the three samples and answer `{"inserted": len(samples)}`. -/
def seed_clips (db : Db) : SeedResp × Db :=
  let coll := db (_collection_name "Systemclip")
  if coll.length > 0 then
    (.message "Already seeded", db)
  else
    (.inserted samples.length,
     setDb db (_collection_name "Systemclip") (coll ++ sampleDocs coll.length))

/-- Three consecutive `POST /api/like` requests with `delta = 1` for the same
`clip_id`, each acting on the store left by the previous one. -/
def likeThrice (cid : String) (db : Db) : Db :=
  (like_clip cid 1 (like_clip cid 1 (like_clip cid 1 db).2).2).2

/-- A payload with `video_url` missing. -/
def badPayload : RawPayload :=
  { title := some "T", topic := some "OS", description := none,
    video_url := none, thumbnail_url := none, tags := none,
    difficulty := none, likes := none, bookmarks := none, author := none }

/-- A fully valid payload. -/
def goodPayload : RawPayload :=
  { title := some "T", topic := some "OS", description := none,
    video_url := some "http://example.com/v.mp4", thumbnail_url := none,
    tags := none, difficulty := none, likes := none, bookmarks := none,
    author := none }

/-- The validated form of `goodPayload`. -/
def goodClip : Systemclip :=
  { title := "T", topic := "OS", description := none,
    video_url := "http://example.com/v.mp4", thumbnail_url := none,
    tags := [], difficulty := none, likes := 0, bookmarks := 0,
    author := none }

/-! ### Lemmas about `updateFirst` -/

theorem updateFirst_length (p : Doc → Bool) (f : Doc → Doc) (l : List Doc) :
    (updateFirst p f l).2.length = l.length := by
  induction l with
  | nil => rfl
  | cons d ds ih =>
    by_cases h : p d
    · simp [updateFirst, h]
    · simp [updateFirst, h, ih]

theorem updateFirst_fst_eq_zero_iff (p : Doc → Bool) (f : Doc → Doc)
    (l : List Doc) :
    (updateFirst p f l).1 = 0 ↔ ∀ d ∈ l, p d = false := by
  induction l with
  | nil => simp [updateFirst]
  | cons d ds ih =>
    by_cases h : p d
    · simp [updateFirst, h]
    · simpa [updateFirst, h] using ih

theorem updateFirst_snd_of_none (p : Doc → Bool) (f : Doc → Doc)
    (l : List Doc) (hnone : ∀ d ∈ l, p d = false) :
    (updateFirst p f l).2 = l := by
  induction l with
  | nil => rfl
  | cons d ds ih =>
    have hd : p d = false := hnone d (List.mem_cons_self d ds)
    have hds : ∀ x ∈ ds, p x = false := fun x hx => hnone x (List.mem_cons_of_mem d hx)
    simp [updateFirst, hd, ih hds]

theorem updateFirst_of_firstMatch (p : Doc → Bool) (f : Doc → Doc) :
    ∀ (l : List Doc) (i : Nat) (h : i < l.length),
      p (l.get ⟨i, h⟩) = true →
      (∀ j (hj : j < i), p (l.get ⟨j, lt_trans hj h⟩) = false) →
      updateFirst p f l = (1, l.set i (f (l.get ⟨i, h⟩))) := by
  intro l
  induction l with
  | nil => intro i h; exact absurd h (Nat.not_lt_zero i)
  | cons d ds ih =>
    intro i h hp hbefore
    cases i with
    | zero => simp_all [updateFirst]
    | succ k =>
      have hd : p d = false := hbefore 0 (Nat.succ_pos k)
      have hk : k < ds.length := Nat.lt_of_succ_lt_succ h
      have hbefore' : ∀ j (hj : j < k), p (ds.get ⟨j, lt_trans hj hk⟩) = false := by
        intro j hj
        exact hbefore (j + 1) (Nat.succ_lt_succ hj)
      have := ih k hk (by simpa using hp) hbefore'
      simp [updateFirst, hd, this]

theorem updateFirst_of_match (p : Doc → Bool) (f : Doc → Doc)
    (l : List Doc) (hne : (updateFirst p f l).1 ≠ 0) :
    ∃ (i : Nat) (h : i < l.length),
      p (l.get ⟨i, h⟩) = true ∧
      (∀ j (hj : j < i), p (l.get ⟨j, lt_trans hj h⟩) = false) ∧
      (updateFirst p f l).2 = l.set i (f (l.get ⟨i, h⟩)) := by
  induction l with
  | nil => exact absurd rfl hne
  | cons d ds ih =>
    by_cases hd : p d
    · refine ⟨0, Nat.succ_pos _, by simpa using hd, ?_, ?_⟩
      · intro j hj; exact absurd hj (Nat.not_lt_zero j)
      · simp [updateFirst, hd]
    · have hne' : (updateFirst p f ds).1 ≠ 0 := by
        simpa [updateFirst, hd] using hne
      obtain ⟨i, h, hp, hbefore, hsnd⟩ := ih hne'
      refine ⟨i + 1, Nat.succ_lt_succ h, by simpa using hp, ?_, ?_⟩
      · intro j hj
        cases j with
        | zero => simpa using hd
        | succ k => exact hbefore k (Nat.lt_of_succ_lt_succ hj)
      · simp [updateFirst, hd, hsnd]

/-! ### Lemmas about `setDb` and the counter endpoints -/

theorem setDb_same (db : Db) (n : String) (l : List Doc) : setDb db n l n = l := by
  simp [setDb]

theorem setDb_other (db : Db) (n : String) (l : List Doc) (c : String)
    (h : c ≠ n) : setDb db n l c = db c := by
  simp [setDb, h]

/-- Characterisation of a successful like: some first-matching index `i`
exists (by `_id` when the ObjectId parse succeeds, by the `id` field when it
fails) and the store after the request is the store with document `i`
replaced by its `likes`/`updated_at` increment. -/
theorem like_clip_ok (cid : String) (δ : Int) (db : Db) (r : OkResp) (db' : Db)
    (heq : like_clip cid δ db = (.ok r, db')) :
    r = { ok := true } ∧
    ∃ (i : Nat) (h : i < (db (_collection_name "Systemclip")).length),
      (if isValidObjectId cid then
         oidMatch cid ((db (_collection_name "Systemclip")).get ⟨i, h⟩) = true
       else
         idFieldMatch cid ((db (_collection_name "Systemclip")).get ⟨i, h⟩) = true) ∧
      db' = setDb db (_collection_name "Systemclip")
        ((db (_collection_name "Systemclip")).set i
          (incLikes δ ((db (_collection_name "Systemclip")).get ⟨i, h⟩))) := by
  by_cases hv : isValidObjectId cid
  · simp only [like_clip, hv, if_true] at heq
    by_cases h0 : (updateFirst (oidMatch cid) (incLikes δ)
        (db (_collection_name "Systemclip"))).1 = 0
    · simp [h0] at heq
    · simp [h0] at heq
      obtain ⟨hr, hdb⟩ := heq
      obtain ⟨i, h, hp, _, hsnd⟩ := updateFirst_of_match _ _ _ h0
      exact ⟨hr.symm, i, h, by rw [if_pos hv]; exact hp, by rw [← hdb, hsnd]⟩
  · simp only [like_clip, hv, if_false] at heq
    by_cases h0 : (updateFirst (idFieldMatch cid) (incLikes δ)
        (db (_collection_name "Systemclip"))).1 = 0
    · simp [h0] at heq
    · simp [h0] at heq
      obtain ⟨hr, hdb⟩ := heq
      obtain ⟨i, h, hp, _, hsnd⟩ := updateFirst_of_match _ _ _ h0
      exact ⟨hr.symm, i, h, by rw [if_neg hv]; exact hp, by rw [← hdb, hsnd]⟩

/-- Characterisation of a successful bookmark, mirror image of
`like_clip_ok`. -/
theorem bookmark_clip_ok (cid : String) (δ : Int) (db : Db) (r : OkResp) (db' : Db)
    (heq : bookmark_clip cid δ db = (.ok r, db')) :
    r = { ok := true } ∧
    ∃ (i : Nat) (h : i < (db (_collection_name "Systemclip")).length),
      (if isValidObjectId cid then
         oidMatch cid ((db (_collection_name "Systemclip")).get ⟨i, h⟩) = true
       else
         idFieldMatch cid ((db (_collection_name "Systemclip")).get ⟨i, h⟩) = true) ∧
      db' = setDb db (_collection_name "Systemclip")
        ((db (_collection_name "Systemclip")).set i
          (incBookmarks δ ((db (_collection_name "Systemclip")).get ⟨i, h⟩))) := by
  by_cases hv : isValidObjectId cid
  · simp only [bookmark_clip, hv, if_true] at heq
    by_cases h0 : (updateFirst (oidMatch cid) (incBookmarks δ)
        (db (_collection_name "Systemclip"))).1 = 0
    · simp [h0] at heq
    · simp [h0] at heq
      obtain ⟨hr, hdb⟩ := heq
      obtain ⟨i, h, hp, _, hsnd⟩ := updateFirst_of_match _ _ _ h0
      exact ⟨hr.symm, i, h, by rw [if_pos hv]; exact hp, by rw [← hdb, hsnd]⟩
  · simp only [bookmark_clip, hv, if_false] at heq
    by_cases h0 : (updateFirst (idFieldMatch cid) (incBookmarks δ)
        (db (_collection_name "Systemclip"))).1 = 0
    · simp [h0] at heq
    · simp [h0] at heq
      obtain ⟨hr, hdb⟩ := heq
      obtain ⟨i, h, hp, _, hsnd⟩ := updateFirst_of_match _ _ _ h0
      exact ⟨hr.symm, i, h, by rw [if_neg hv]; exact hp, by rw [← hdb, hsnd]⟩

/-- A like addressed by a parsing ObjectId whose first `_id` match is at
index `i` succeeds and rewrites exactly that index. -/
theorem like_clip_eq_of_firstMatch_oid (cid : String) (δ : Int) (db : Db)
    (i : Nat) (h : i < (db (_collection_name "Systemclip")).length)
    (hv : isValidObjectId cid = true)
    (hp : oidMatch cid ((db (_collection_name "Systemclip")).get ⟨i, h⟩) = true)
    (hb : ∀ j (hj : j < i),
      oidMatch cid ((db (_collection_name "Systemclip")).get ⟨j, lt_trans hj h⟩) = false) :
    like_clip cid δ db =
      (.ok { ok := true },
       setDb db (_collection_name "Systemclip")
         ((db (_collection_name "Systemclip")).set i
           (incLikes δ ((db (_collection_name "Systemclip")).get ⟨i, h⟩)))) := by
  have hu := updateFirst_of_firstMatch (oidMatch cid) (incLikes δ)
    (db (_collection_name "Systemclip")) i h hp hb
  simp [like_clip, hv, hu]

/-- A like addressed by a non-parsing string whose first `id`-field match is
at index `i` succeeds and rewrites exactly that index. -/
theorem like_clip_eq_of_firstMatch_idField (cid : String) (δ : Int) (db : Db)
    (i : Nat) (h : i < (db (_collection_name "Systemclip")).length)
    (hv : isValidObjectId cid = false)
    (hp : idFieldMatch cid ((db (_collection_name "Systemclip")).get ⟨i, h⟩) = true)
    (hb : ∀ j (hj : j < i),
      idFieldMatch cid ((db (_collection_name "Systemclip")).get ⟨j, lt_trans hj h⟩) = false) :
    like_clip cid δ db =
      (.ok { ok := true },
       setDb db (_collection_name "Systemclip")
         ((db (_collection_name "Systemclip")).set i
           (incLikes δ ((db (_collection_name "Systemclip")).get ⟨i, h⟩)))) := by
  have hu := updateFirst_of_firstMatch (idFieldMatch cid) (incLikes δ)
    (db (_collection_name "Systemclip")) i h hp hb
  simp [like_clip, hv, hu]

theorem swapCounters_swapCounters (d : Doc) :
    swapCounters (swapCounters d) = d := rfl

theorem updateFirst_map_swap (p : Doc → Bool) (f g : Doc → Doc)
    (hp : ∀ d, p (swapCounters d) = p d)
    (hfg : ∀ d, f (swapCounters d) = swapCounters (g d)) (l : List Doc) :
    updateFirst p f (l.map swapCounters) =
      ((updateFirst p g l).1, (updateFirst p g l).2.map swapCounters) := by
  induction l with
  | nil => rfl
  | cons d ds ih =>
    by_cases hd : p d
    · simp [updateFirst, hp, hd, hfg]
    · simp [updateFirst, hp, hd, ih]

theorem swapDb_setDb_swap (db : Db) (n : String) (l : List Doc) :
    swapDb (setDb (swapDb db) n (l.map swapCounters)) = setDb db n l := by
  have hid : swapCounters ∘ swapCounters = id := funext swapCounters_swapCounters
  funext c
  by_cases h : c = n <;>
    simp [swapDb, setDb, h, List.map_map, hid]

/-! ### Further helper lemmas -/

theorem collection_name_systemclip : _collection_name "Systemclip" = "systemclip" := by
  decide

theorem seed_clips_of_nonempty (db : Db)
    (hne : db (_collection_name "Systemclip") ≠ []) :
    seed_clips db = (.message "Already seeded", db) := by
  have hpos : 0 < (db (_collection_name "Systemclip")).length :=
    List.length_pos.mpr hne
  simp [seed_clips, hpos]

theorem seed_clips_of_empty (db : Db)
    (hemp : db (_collection_name "Systemclip") = []) :
    seed_clips db =
      (.inserted samples.length,
       setDb db (_collection_name "Systemclip") (sampleDocs 0)) := by
  simp [seed_clips, hemp]

/-- One like via a canonical, unique native identifier: succeeds, rewrites
index `i` to its increment, and preserves the first-match situation. -/
theorem like_one_step (cid : String) (δ : Int) (db : Db) (i : Nat) (d : Doc)
    (hv : isValidObjectId cid = true) (hlow : strToLower cid = cid)
    (hget : (db (_collection_name "Systemclip"))[i]? = some d)
    (hid : d._id = cid)
    (hbefore : ∀ j e, j < i →
      (db (_collection_name "Systemclip"))[j]? = some e → e._id ≠ cid) :
    (like_clip cid δ db).1 = .ok { ok := true } ∧
    ((like_clip cid δ db).2 (_collection_name "Systemclip"))[i]? = some (incLikes δ d) ∧
    (∀ j, j ≠ i →
      ((like_clip cid δ db).2 (_collection_name "Systemclip"))[j]? =
        (db (_collection_name "Systemclip"))[j]?) := by
  obtain ⟨h, hgetd⟩ := List.getElem?_eq_some_iff.mp hget
  have hp : oidMatch cid ((db (_collection_name "Systemclip")).get ⟨i, h⟩) = true := by
    simp only [oidMatch, hlow, List.get_eq_getElem, hgetd, hid, beq_self_eq_true]
  have hb : ∀ j (hj : j < i),
      oidMatch cid ((db (_collection_name "Systemclip")).get ⟨j, lt_trans hj h⟩) = false := by
    intro j hj
    have hj' : j < (db (_collection_name "Systemclip")).length := lt_trans hj h
    have := hbefore j ((db (_collection_name "Systemclip")).get ⟨j, hj'⟩) hj
      (by simp [List.getElem?_eq_getElem hj'])
    simp only [oidMatch, hlow, beq_eq_false_iff_ne]
    exact this
  have heq := like_clip_eq_of_firstMatch_oid cid δ db i h hv hp hb
  have h2 : (like_clip cid δ db).2 (_collection_name "Systemclip") =
      (db (_collection_name "Systemclip")).set i
        (incLikes δ ((db (_collection_name "Systemclip")).get ⟨i, h⟩)) := by
    simp [heq, setDb_same]
  refine ⟨by rw [heq], ?_, ?_⟩
  · rw [h2]
    simp [List.getElem?_set_self h, List.get_eq_getElem, hgetd]
  · intro j hne
    rw [h2]
    exact List.getElem?_set_ne (Ne.symm hne)

/-- What a successful validation guarantees about the raw payload. -/
theorem validateSystemclip_ok_inv (p : RawPayload) (c : Systemclip)
    (h : validateSystemclip p = .ok c) :
    p.title = some c.title ∧ p.topic = some c.topic ∧
    p.video_url = some c.video_url ∧ isValidHttpUrl c.video_url = true ∧
    (∀ u, p.thumbnail_url = some u → isValidHttpUrl u = true) ∧
    c.likes = p.likes.getD 0 ∧ 0 ≤ c.likes ∧
    c.bookmarks = p.bookmarks.getD 0 ∧ 0 ≤ c.bookmarks := by
  unfold validateSystemclip at h
  split at h
  · simp at h
  rename_i title htitle
  split at h
  · simp at h
  rename_i topic htopic
  split at h
  · simp at h
  rename_i vurl hvurl
  split at h
  · simp at h
  rename_i hval
  rw [Bool.not_eq_true', Bool.not_eq_false] at hval
  split at h
  · rename_i turl hturl
    split at h
    · simp at h
    rename_i htval
    rw [Bool.not_eq_true', Bool.not_eq_false] at htval
    split at h
    · simp at h
    rename_i hl
    split at h
    · simp at h
    rename_i hb
    injection h with h
    subst h
    rw [not_lt] at hl hb
    refine ⟨htitle, htopic, hvurl, hval, ?_, rfl, hl, rfl, hb⟩
    intro u hu
    rw [hturl] at hu
    exact Option.noConfusion hu (fun he => he ▸ htval)
  · rename_i hturl
    split at h
    · simp at h
    rename_i hl
    split at h
    · simp at h
    rename_i hb
    injection h with h
    subst h
    rw [not_lt] at hl hb
    refine ⟨htitle, htopic, hvurl, hval, ?_, rfl, hl, rfl, hb⟩
    intro u hu
    rw [hturl] at hu
    exact Option.noConfusion hu

/-- Any of the malformed-payload conditions makes validation fail. -/
theorem validateSystemclip_error_of_bad (p : RawPayload)
    (hbad : p.title = none ∨ p.topic = none ∨ p.video_url = none ∨
            (∃ u, p.video_url = some u ∧ isValidHttpUrl u = false) ∨
            (∃ u, p.thumbnail_url = some u ∧ isValidHttpUrl u = false) ∨
            (∃ x, p.likes = some x ∧ x < 0) ∨
            (∃ x, p.bookmarks = some x ∧ x < 0)) :
    ∃ e, validateSystemclip p = .error e := by
  rcases hres : validateSystemclip p with e | c
  · exact ⟨e, rfl⟩
  exfalso
  obtain ⟨h1, h2, h3, h4, h5, h6, h7, h8, h9⟩ := validateSystemclip_ok_inv p c hres
  rcases hbad with h | h | h | ⟨u, hu, hbad'⟩ | ⟨u, hu, hbad'⟩ | ⟨x, hx, hneg⟩ | ⟨x, hx, hneg⟩
  · rw [h] at h1; exact Option.noConfusion h1
  · rw [h] at h2; exact Option.noConfusion h2
  · rw [h] at h3; exact Option.noConfusion h3
  · rw [hu] at h3
    injection h3 with h3
    rw [← h3] at h4
    rw [h4] at hbad'
    exact Bool.noConfusion hbad'
  · rw [h5 u hu] at hbad'
    exact Bool.noConfusion hbad'
  · rw [hx] at h6
    simp only [Option.getD_some] at h6
    omega
  · rw [hx] at h8
    simp only [Option.getD_some] at h8
    omega

/-! ### The claims -/

/-- C7: `ApplyCounterDelta` applies a caller-supplied arbitrary integer delta
as-is, with no clamping and no restriction of the delta to ±1: liking the
stored example clip with `delta = -5` succeeds, and the resulting `likes`
counter is `-5`, strictly below 0. -/
theorem C7_unclamped_delta :
    (like_clip "clip-1" (-5) (dbOf [exampleDoc])).1 = .ok { ok := true } ∧
    ((like_clip "clip-1" (-5) (dbOf [exampleDoc])).2 "systemclip").map Doc.likes
      = [(-5 : Int)] ∧
    (-5 : Int) < 0 :=
  ⟨rfl, rfl, by norm_num⟩

/-- C4: Seed is idempotent: with any clip already present it inserts nothing
and reports "Already seeded"; from an empty store it inserts the fixed set of
`samples.length = 3 > 0` example clips and returns that count, and a second
call from the resulting store inserts nothing and reports "Already seeded". -/
theorem C4_seed_idempotent :
    (∀ db : Db, db (_collection_name "Systemclip") ≠ [] →
       seed_clips db = (.message "Already seeded", db)) ∧
    (∀ db : Db, db (_collection_name "Systemclip") = [] →
       seed_clips db =
         (.inserted samples.length,
          setDb db (_collection_name "Systemclip") (sampleDocs 0)) ∧
       samples.length = 3 ∧ 0 < samples.length ∧
       (sampleDocs 0).length = samples.length ∧
       seed_clips ((seed_clips db).2) =
         (.message "Already seeded", (seed_clips db).2)) := by
  refine ⟨seed_clips_of_nonempty, ?_⟩
  intro db hemp
  have h := seed_clips_of_empty db hemp
  have h2 : (seed_clips db).2 = setDb db (_collection_name "Systemclip") (sampleDocs 0) := by
    rw [h]
  have h3 : (seed_clips db).2 (_collection_name "Systemclip") ≠ [] := by
    rw [h2, setDb_same]
    decide
  exact ⟨h, rfl, by decide, rfl, seed_clips_of_nonempty _ h3⟩

/-- C4 witness: seeding the concrete empty store inserts the three samples;
seeding a store already holding a clip reports "Already seeded" and leaves
the store unchanged. -/
theorem C4_seed_idempotent_witness :
    seed_clips (dbOf []) =
      (.inserted samples.length,
       setDb (dbOf []) (_collection_name "Systemclip") (sampleDocs 0)) ∧
    seed_clips (dbOf [exampleDoc]) = (.message "Already seeded", dbOf [exampleDoc]) :=
  ⟨(C4_seed_idempotent.2 (dbOf []) (by decide)).1,
   C4_seed_idempotent.1 (dbOf [exampleDoc]) (by decide)⟩

/-- C8: the bookmark endpoint is the like endpoint up to exchanging the two
counter fields: for every store, clip_id and delta, `bookmark_clip` returns
exactly the response `like_clip` returns on the counter-swapped store, and
its store effect is the counter-swap of the like effect (so match result,
error behaviour, response body and `updated_at` change all coincide, with
`bookmarks` incremented in place of `likes`). -/
theorem C8_bookmark_is_like_with_counters_swapped (cid : String) (δ : Int) (db : Db) :
    bookmark_clip cid δ db =
      ((like_clip cid δ (swapDb db)).1,
       swapDb (like_clip cid δ (swapDb db)).2) := by
  have hswap : (swapDb db) (_collection_name "Systemclip") =
      (db (_collection_name "Systemclip")).map swapCounters := rfl
  by_cases hv : isValidObjectId cid
  · have hu := updateFirst_map_swap (oidMatch cid) (incLikes δ) (incBookmarks δ)
      (fun d => rfl) (fun d => rfl) (db (_collection_name "Systemclip"))
    by_cases h0 : (updateFirst (oidMatch cid) (incBookmarks δ)
        (db (_collection_name "Systemclip"))).1 = 0
    · simp [bookmark_clip, like_clip, hv, hswap, hu, h0, swapDb_setDb_swap]
    · simp [bookmark_clip, like_clip, hv, hswap, hu, h0, swapDb_setDb_swap]
  · have hu := updateFirst_map_swap (idFieldMatch cid) (incLikes δ) (incBookmarks δ)
      (fun d => rfl) (fun d => rfl) (db (_collection_name "Systemclip"))
    by_cases h0 : (updateFirst (idFieldMatch cid) (incBookmarks δ)
        (db (_collection_name "Systemclip"))).1 = 0
    · simp [bookmark_clip, like_clip, hv, hswap, hu, h0, swapDb_setDb_swap]
    · simp [bookmark_clip, like_clip, hv, hswap, hu, h0, swapDb_setDb_swap]

/-- C1: a successful counter-delta rewrites exactly the matched document,
adding `delta` to the target counter (`likes` for `/api/like`, `bookmarks`
for `/api/bookmark`) and exactly 1 to `updated_at`; and three consecutive
like requests with delta 1 addressed to the same existing clip by its unique
native identifier leave its `likes` at the initial value plus 3. -/
theorem C1_counter_delta_increment :
    (∀ (cid : String) (δ : Int) (db : Db) (r : OkResp) (db' : Db),
       like_clip cid δ db = (.ok r, db') →
       ∃ (i : Nat) (h : i < (db (_collection_name "Systemclip")).length),
         db' = setDb db (_collection_name "Systemclip")
           ((db (_collection_name "Systemclip")).set i
             { (db (_collection_name "Systemclip")).get ⟨i, h⟩ with
                 likes := ((db (_collection_name "Systemclip")).get ⟨i, h⟩).likes + δ,
                 updated_at := ((db (_collection_name "Systemclip")).get ⟨i, h⟩).updated_at + 1 })) ∧
    (∀ (cid : String) (δ : Int) (db : Db) (r : OkResp) (db' : Db),
       bookmark_clip cid δ db = (.ok r, db') →
       ∃ (i : Nat) (h : i < (db (_collection_name "Systemclip")).length),
         db' = setDb db (_collection_name "Systemclip")
           ((db (_collection_name "Systemclip")).set i
             { (db (_collection_name "Systemclip")).get ⟨i, h⟩ with
                 bookmarks := ((db (_collection_name "Systemclip")).get ⟨i, h⟩).bookmarks + δ,
                 updated_at := ((db (_collection_name "Systemclip")).get ⟨i, h⟩).updated_at + 1 })) ∧
    (∀ (db : Db) (i : Nat) (d : Doc),
       (db (_collection_name "Systemclip"))[i]? = some d →
       isValidObjectId d._id = true →
       strToLower d._id = d._id →
       (∀ j e, j < i → (db (_collection_name "Systemclip"))[j]? = some e → e._id ≠ d._id) →
       ∃ d3 : Doc,
         ((likeThrice d._id db) (_collection_name "Systemclip"))[i]? = some d3 ∧
         d3.likes = d.likes + 3 ∧ d3.updated_at = d.updated_at + 3) := by
  refine ⟨?_, ?_, ?_⟩
  · intro cid δ db r db' heq
    obtain ⟨_, i, h, _, hdb⟩ := like_clip_ok cid δ db r db' heq
    exact ⟨i, h, hdb⟩
  · intro cid δ db r db' heq
    obtain ⟨_, i, h, _, hdb⟩ := bookmark_clip_ok cid δ db r db' heq
    exact ⟨i, h, hdb⟩
  · intro db i d hget hv hlow hbefore
    obtain ⟨hok1, hget1, hframe1⟩ := like_one_step d._id 1 db i d hv hlow hget rfl hbefore
    have hbefore1 : ∀ j e, j < i →
        (((like_clip d._id 1 db).2) (_collection_name "Systemclip"))[j]? = some e →
        e._id ≠ d._id := by
      intro j e hj hge
      refine hbefore j e hj ?_
      rw [← hframe1 j (Nat.ne_of_lt hj)]
      exact hge
    obtain ⟨hok2, hget2, hframe2⟩ := like_one_step d._id 1
      ((like_clip d._id 1 db).2) i (incLikes 1 d) hv hlow hget1 rfl hbefore1
    have hbefore2 : ∀ j e, j < i →
        (((like_clip d._id 1 ((like_clip d._id 1 db).2)).2) (_collection_name "Systemclip"))[j]? = some e →
        e._id ≠ d._id := by
      intro j e hj hge
      refine hbefore1 j e hj ?_
      rw [← hframe2 j (Nat.ne_of_lt hj)]
      exact hge
    obtain ⟨hok3, hget3, hframe3⟩ := like_one_step d._id 1
      ((like_clip d._id 1 ((like_clip d._id 1 db).2)).2) i
      (incLikes 1 (incLikes 1 d)) hv hlow hget2 rfl hbefore2
    refine ⟨incLikes 1 (incLikes 1 (incLikes 1 d)), hget3, ?_, ?_⟩
    · show d.likes + 1 + 1 + 1 = d.likes + 3
      omega
    · show d.updated_at + 1 + 1 + 1 = d.updated_at + 3
      omega

/-- C1 witness: liking the externally addressed example clip with delta 2
rewrites it as the theorem states; three consecutive likes on the natively
addressed example clip bring its `likes` from 5 to 8. -/
theorem C1_counter_delta_increment_witness :
    (∃ (i : Nat) (h : i < ((dbOf [exampleDoc]) (_collection_name "Systemclip")).length),
       (like_clip "clip-1" 2 (dbOf [exampleDoc])).2 =
         setDb (dbOf [exampleDoc]) (_collection_name "Systemclip")
           (((dbOf [exampleDoc]) (_collection_name "Systemclip")).set i
             { ((dbOf [exampleDoc]) (_collection_name "Systemclip")).get ⟨i, h⟩ with
                 likes := (((dbOf [exampleDoc]) (_collection_name "Systemclip")).get ⟨i, h⟩).likes + 2,
                 updated_at := (((dbOf [exampleDoc]) (_collection_name "Systemclip")).get ⟨i, h⟩).updated_at + 1 })) ∧
    (∃ d3 : Doc,
       ((likeThrice exampleDoc2._id (dbOf [exampleDoc2])) (_collection_name "Systemclip"))[0]? = some d3 ∧
       d3.likes = exampleDoc2.likes + 3 ∧ d3.updated_at = exampleDoc2.updated_at + 3) := by
  constructor
  · exact C1_counter_delta_increment.1 "clip-1" 2 (dbOf [exampleDoc]) { ok := true }
      ((like_clip "clip-1" 2 (dbOf [exampleDoc])).2) rfl
  · exact C1_counter_delta_increment.2.2 (dbOf [exampleDoc2]) 0 exampleDoc2 rfl rfl rfl
      (fun j e hj _ => absurd hj (Nat.not_lt_zero j))

/-- C2: identifier resolution: when `clip_id` parses as an ObjectId the
outcome is decided by native `_id` matches alone, and when the parse fails it
is decided by the stored string field `id` alone, so the fallback match is
consulted exactly when the parse fails; moreover a clip addressed only by an
externally supplied (non-parsing) string `id` is found and mutated. -/
theorem C2_identifier_resolution :
    (∀ (cid : String) (δ : Int) (db : Db), isValidObjectId cid = true →
       ((like_clip cid δ db).1 = .ok { ok := true } ↔
         ∃ d ∈ db (_collection_name "Systemclip"), oidMatch cid d = true)) ∧
    (∀ (cid : String) (δ : Int) (db : Db), isValidObjectId cid = false →
       ((like_clip cid δ db).1 = .ok { ok := true } ↔
         ∃ d ∈ db (_collection_name "Systemclip"), idFieldMatch cid d = true)) ∧
    (∀ (cid : String) (δ : Int) (db : Db) (i : Nat)
       (h : i < (db (_collection_name "Systemclip")).length),
       isValidObjectId cid = false →
       idFieldMatch cid ((db (_collection_name "Systemclip")).get ⟨i, h⟩) = true →
       (∀ j (hj : j < i),
         idFieldMatch cid ((db (_collection_name "Systemclip")).get ⟨j, lt_trans hj h⟩) = false) →
       like_clip cid δ db =
         (.ok { ok := true },
          setDb db (_collection_name "Systemclip")
            ((db (_collection_name "Systemclip")).set i
              (incLikes δ ((db (_collection_name "Systemclip")).get ⟨i, h⟩))))) := by
  refine ⟨?_, ?_, ?_⟩
  · intro cid δ db hv
    constructor
    · intro hok
      by_cases h0 : (updateFirst (oidMatch cid) (incLikes δ)
          (db (_collection_name "Systemclip"))).1 = 0
      · exfalso; simp [like_clip, hv, h0] at hok
      · obtain ⟨i, h, hp, _, _⟩ := updateFirst_of_match _ _ _ h0
        exact ⟨_, List.get_mem _ _ _, hp⟩
    · rintro ⟨d, hmem, hp⟩
      by_cases h0 : (updateFirst (oidMatch cid) (incLikes δ)
          (db (_collection_name "Systemclip"))).1 = 0
      · exfalso
        have := (updateFirst_fst_eq_zero_iff _ _ _).mp h0 d hmem
        rw [hp] at this; exact Bool.noConfusion this
      · simp [like_clip, hv, h0]
  · intro cid δ db hv
    constructor
    · intro hok
      by_cases h0 : (updateFirst (idFieldMatch cid) (incLikes δ)
          (db (_collection_name "Systemclip"))).1 = 0
      · exfalso; simp [like_clip, hv, h0] at hok
      · obtain ⟨i, h, hp, _, _⟩ := updateFirst_of_match _ _ _ h0
        exact ⟨_, List.get_mem _ _ _, hp⟩
    · rintro ⟨d, hmem, hp⟩
      by_cases h0 : (updateFirst (idFieldMatch cid) (incLikes δ)
          (db (_collection_name "Systemclip"))).1 = 0
      · exfalso
        have := (updateFirst_fst_eq_zero_iff _ _ _).mp h0 d hmem
        rw [hp] at this; exact Bool.noConfusion this
      · simp [like_clip, hv, h0]
  · intro cid δ db i h hv hp hb
    exact like_clip_eq_of_firstMatch_idField cid δ db i h hv hp hb

/-- C2 witness: the example clip is found through its native identifier when
the clip_id parses, and through its string `id` field ("clip-1", which does
not parse) otherwise, in which case it is mutated in place. -/
theorem C2_identifier_resolution_witness :
    (like_clip "64c13ab08edf48a008793cac" 1 (dbOf [exampleDoc])).1 = .ok { ok := true } ∧
    like_clip "clip-1" 1 (dbOf [exampleDoc]) =
      (.ok { ok := true },
       setDb (dbOf [exampleDoc]) (_collection_name "Systemclip")
         (((dbOf [exampleDoc]) (_collection_name "Systemclip")).set 0
           (incLikes 1 (((dbOf [exampleDoc]) (_collection_name "Systemclip")).get
             ⟨0, by decide⟩)))) := by
  constructor
  · exact (C2_identifier_resolution.1 "64c13ab08edf48a008793cac" 1 (dbOf [exampleDoc])
      rfl).mpr ⟨exampleDoc, by decide, rfl⟩
  · exact C2_identifier_resolution.2.2 "clip-1" 1 (dbOf [exampleDoc]) 0 (by decide) rfl rfl
      (fun j hj => absurd hj (Nat.not_lt_zero j))

/-- C3: the counter-delta endpoints fail with NotFoundError (HTTP 404)
exactly when the applicable resolution strategy (native `_id` when the parse
succeeds, the string field `id` when it fails) matches no document of the
store, and in that failure case no document of any collection is modified. -/
theorem C3_not_found_iff_no_match :
    (∀ (cid : String) (δ : Int) (db : Db),
       ((like_clip cid δ db).1 = .error (.notFound "Clip not found") ↔
         (if isValidObjectId cid
            then ∀ d ∈ db (_collection_name "Systemclip"), oidMatch cid d = false
            else ∀ d ∈ db (_collection_name "Systemclip"), idFieldMatch cid d = false))) ∧
    (∀ (cid : String) (δ : Int) (db : Db),
       ((bookmark_clip cid δ db).1 = .error (.notFound "Clip not found") ↔
         (if isValidObjectId cid
            then ∀ d ∈ db (_collection_name "Systemclip"), oidMatch cid d = false
            else ∀ d ∈ db (_collection_name "Systemclip"), idFieldMatch cid d = false))) ∧
    (∀ (cid : String) (δ : Int) (db : Db),
       (like_clip cid δ db).1 = .error (.notFound "Clip not found") →
       ∀ c, (like_clip cid δ db).2 c = db c) ∧
    (∀ (cid : String) (δ : Int) (db : Db),
       (bookmark_clip cid δ db).1 = .error (.notFound "Clip not found") →
       ∀ c, (bookmark_clip cid δ db).2 c = db c) ∧
    (ApiError.notFound "Clip not found").status = 404 := by
  refine ⟨?_, ?_, ?_, ?_, rfl⟩
  · intro cid δ db
    by_cases hv : isValidObjectId cid
    · rw [if_pos hv]
      by_cases h0 : (updateFirst (oidMatch cid) (incLikes δ)
          (db (_collection_name "Systemclip"))).1 = 0
      · exact ⟨fun _ => (updateFirst_fst_eq_zero_iff _ _ _).mp h0,
               fun _ => by simp [like_clip, hv, h0]⟩
      · constructor
        · intro hok; exfalso; simp [like_clip, hv, h0] at hok
        · intro hall; exact absurd ((updateFirst_fst_eq_zero_iff _ _ _).mpr hall) h0
    · rw [if_neg hv]
      by_cases h0 : (updateFirst (idFieldMatch cid) (incLikes δ)
          (db (_collection_name "Systemclip"))).1 = 0
      · exact ⟨fun _ => (updateFirst_fst_eq_zero_iff _ _ _).mp h0,
               fun _ => by simp [like_clip, hv, h0]⟩
      · constructor
        · intro hok; exfalso; simp [like_clip, hv, h0] at hok
        · intro hall; exact absurd ((updateFirst_fst_eq_zero_iff _ _ _).mpr hall) h0
  · intro cid δ db
    by_cases hv : isValidObjectId cid
    · rw [if_pos hv]
      by_cases h0 : (updateFirst (oidMatch cid) (incBookmarks δ)
          (db (_collection_name "Systemclip"))).1 = 0
      · exact ⟨fun _ => (updateFirst_fst_eq_zero_iff _ _ _).mp h0,
               fun _ => by simp [bookmark_clip, hv, h0]⟩
      · constructor
        · intro hok; exfalso; simp [bookmark_clip, hv, h0] at hok
        · intro hall; exact absurd ((updateFirst_fst_eq_zero_iff _ _ _).mpr hall) h0
    · rw [if_neg hv]
      by_cases h0 : (updateFirst (idFieldMatch cid) (incBookmarks δ)
          (db (_collection_name "Systemclip"))).1 = 0
      · exact ⟨fun _ => (updateFirst_fst_eq_zero_iff _ _ _).mp h0,
               fun _ => by simp [bookmark_clip, hv, h0]⟩
      · constructor
        · intro hok; exfalso; simp [bookmark_clip, hv, h0] at hok
        · intro hall; exact absurd ((updateFirst_fst_eq_zero_iff _ _ _).mpr hall) h0
  · intro cid δ db herr c
    by_cases hv : isValidObjectId cid
    · by_cases h0 : (updateFirst (oidMatch cid) (incLikes δ)
          (db (_collection_name "Systemclip"))).1 = 0
      · have hnone := (updateFirst_fst_eq_zero_iff _ _ _).mp h0
        have hsnd := updateFirst_snd_of_none (oidMatch cid) (incLikes δ) _ hnone
        have h2 : (like_clip cid δ db).2 =
            setDb db (_collection_name "Systemclip")
              (updateFirst (oidMatch cid) (incLikes δ)
                (db (_collection_name "Systemclip"))).2 := by
          simp [like_clip, hv, h0]
        rw [h2, hsnd]
        by_cases hc : c = _collection_name "Systemclip"
        · rw [hc, setDb_same]
        · rw [setDb_other _ _ _ _ hc]
      · exfalso; simp [like_clip, hv, h0] at herr
    · by_cases h0 : (updateFirst (idFieldMatch cid) (incLikes δ)
          (db (_collection_name "Systemclip"))).1 = 0
      · have hnone := (updateFirst_fst_eq_zero_iff _ _ _).mp h0
        have hsnd := updateFirst_snd_of_none (idFieldMatch cid) (incLikes δ) _ hnone
        have h2 : (like_clip cid δ db).2 =
            setDb db (_collection_name "Systemclip")
              (updateFirst (idFieldMatch cid) (incLikes δ)
                (db (_collection_name "Systemclip"))).2 := by
          simp [like_clip, hv, h0]
        rw [h2, hsnd]
        by_cases hc : c = _collection_name "Systemclip"
        · rw [hc, setDb_same]
        · rw [setDb_other _ _ _ _ hc]
      · exfalso; simp [like_clip, hv, h0] at herr
  · intro cid δ db herr c
    by_cases hv : isValidObjectId cid
    · by_cases h0 : (updateFirst (oidMatch cid) (incBookmarks δ)
          (db (_collection_name "Systemclip"))).1 = 0
      · have hnone := (updateFirst_fst_eq_zero_iff _ _ _).mp h0
        have hsnd := updateFirst_snd_of_none (oidMatch cid) (incBookmarks δ) _ hnone
        have h2 : (bookmark_clip cid δ db).2 =
            setDb db (_collection_name "Systemclip")
              (updateFirst (oidMatch cid) (incBookmarks δ)
                (db (_collection_name "Systemclip"))).2 := by
          simp [bookmark_clip, hv, h0]
        rw [h2, hsnd]
        by_cases hc : c = _collection_name "Systemclip"
        · rw [hc, setDb_same]
        · rw [setDb_other _ _ _ _ hc]
      · exfalso; simp [bookmark_clip, hv, h0] at herr
    · by_cases h0 : (updateFirst (idFieldMatch cid) (incBookmarks δ)
          (db (_collection_name "Systemclip"))).1 = 0
      · have hnone := (updateFirst_fst_eq_zero_iff _ _ _).mp h0
        have hsnd := updateFirst_snd_of_none (idFieldMatch cid) (incBookmarks δ) _ hnone
        have h2 : (bookmark_clip cid δ db).2 =
            setDb db (_collection_name "Systemclip")
              (updateFirst (idFieldMatch cid) (incBookmarks δ)
                (db (_collection_name "Systemclip"))).2 := by
          simp [bookmark_clip, hv, h0]
        rw [h2, hsnd]
        by_cases hc : c = _collection_name "Systemclip"
        · rw [hc, setDb_same]
        · rw [setDb_other _ _ _ _ hc]
      · exfalso; simp [bookmark_clip, hv, h0] at herr

/-- C3 witness: liking a nonexistent clip_id on the concrete one-clip store
answers 404 and leaves the store as it was. -/
theorem C3_not_found_iff_no_match_witness :
    (like_clip "nope" 1 (dbOf [exampleDoc2])).1 = .error (.notFound "Clip not found") ∧
    (like_clip "nope" 1 (dbOf [exampleDoc2])).2 "systemclip" =
      (dbOf [exampleDoc2]) "systemclip" := by
  have herr : (like_clip "nope" 1 (dbOf [exampleDoc2])).1 =
      .error (.notFound "Clip not found") :=
    (C3_not_found_iff_no_match.1 "nope" 1 (dbOf [exampleDoc2])).mpr (by decide)
  exact ⟨herr, C3_not_found_iff_no_match.2.2.1 "nope" 1 (dbOf [exampleDoc2]) herr "systemclip"⟩

/-- C9: on success the counter-delta mutates exactly one document: the store
at every other index and every other collection is unchanged, and the matched
document changes in no field other than the target counter and
`updated_at`. -/
theorem C9_frame_effect :
    (∀ (cid : String) (δ : Int) (db : Db) (r : OkResp) (db' : Db),
       like_clip cid δ db = (.ok r, db') →
       ∃ (i : Nat) (d d' : Doc),
         (db (_collection_name "Systemclip"))[i]? = some d ∧
         (db' (_collection_name "Systemclip"))[i]? = some d' ∧
         (∀ j, j ≠ i → (db' (_collection_name "Systemclip"))[j]? =
           (db (_collection_name "Systemclip"))[j]?) ∧
         (∀ c, c ≠ _collection_name "Systemclip" → db' c = db c) ∧
         d'._id = d._id ∧ d'.id = d.id ∧ d'.title = d.title ∧ d'.topic = d.topic ∧
         d'.description = d.description ∧ d'.video_url = d.video_url ∧
         d'.thumbnail_url = d.thumbnail_url ∧ d'.tags = d.tags ∧
         d'.difficulty = d.difficulty ∧ d'.author = d.author ∧
         d'.bookmarks = d.bookmarks) ∧
    (∀ (cid : String) (δ : Int) (db : Db) (r : OkResp) (db' : Db),
       bookmark_clip cid δ db = (.ok r, db') →
       ∃ (i : Nat) (d d' : Doc),
         (db (_collection_name "Systemclip"))[i]? = some d ∧
         (db' (_collection_name "Systemclip"))[i]? = some d' ∧
         (∀ j, j ≠ i → (db' (_collection_name "Systemclip"))[j]? =
           (db (_collection_name "Systemclip"))[j]?) ∧
         (∀ c, c ≠ _collection_name "Systemclip" → db' c = db c) ∧
         d'._id = d._id ∧ d'.id = d.id ∧ d'.title = d.title ∧ d'.topic = d.topic ∧
         d'.description = d.description ∧ d'.video_url = d.video_url ∧
         d'.thumbnail_url = d.thumbnail_url ∧ d'.tags = d.tags ∧
         d'.difficulty = d.difficulty ∧ d'.author = d.author ∧
         d'.likes = d.likes) := by
  constructor
  · intro cid δ db r db' heq
    obtain ⟨_, i, h, _, hdb⟩ := like_clip_ok cid δ db r db' heq
    refine ⟨i, (db (_collection_name "Systemclip")).get ⟨i, h⟩,
      incLikes δ ((db (_collection_name "Systemclip")).get ⟨i, h⟩),
      by simp [List.getElem?_eq_getElem h], ?_, ?_, ?_,
      rfl, rfl, rfl, rfl, rfl, rfl, rfl, rfl, rfl, rfl, rfl⟩
    · rw [hdb, setDb_same]
      exact List.getElem?_set_self h
    · intro j hne
      rw [hdb, setDb_same]
      exact List.getElem?_set_ne (Ne.symm hne)
    · intro c hc
      rw [hdb]
      exact setDb_other _ _ _ _ hc
  · intro cid δ db r db' heq
    obtain ⟨_, i, h, _, hdb⟩ := bookmark_clip_ok cid δ db r db' heq
    refine ⟨i, (db (_collection_name "Systemclip")).get ⟨i, h⟩,
      incBookmarks δ ((db (_collection_name "Systemclip")).get ⟨i, h⟩),
      by simp [List.getElem?_eq_getElem h], ?_, ?_, ?_,
      rfl, rfl, rfl, rfl, rfl, rfl, rfl, rfl, rfl, rfl, rfl⟩
    · rw [hdb, setDb_same]
      exact List.getElem?_set_self h
    · intro j hne
      rw [hdb, setDb_same]
      exact List.getElem?_set_ne (Ne.symm hne)
    · intro c hc
      rw [hdb]
      exact setDb_other _ _ _ _ hc

/-- C9 witness: liking the example clip touches only index 0 of
`"systemclip"` and only its `likes`/`updated_at` fields. -/
theorem C9_frame_effect_witness :
    ∃ (i : Nat) (d d' : Doc),
      ((dbOf [exampleDoc]) (_collection_name "Systemclip"))[i]? = some d ∧
      ((like_clip "clip-1" 3 (dbOf [exampleDoc])).2 (_collection_name "Systemclip"))[i]? = some d' ∧
      (∀ j, j ≠ i → ((like_clip "clip-1" 3 (dbOf [exampleDoc])).2 (_collection_name "Systemclip"))[j]? =
        ((dbOf [exampleDoc]) (_collection_name "Systemclip"))[j]?) ∧
      (∀ c, c ≠ _collection_name "Systemclip" →
        (like_clip "clip-1" 3 (dbOf [exampleDoc])).2 c = (dbOf [exampleDoc]) c) ∧
      d'._id = d._id ∧ d'.id = d.id ∧ d'.title = d.title ∧ d'.topic = d.topic ∧
      d'.description = d.description ∧ d'.video_url = d.video_url ∧
      d'.thumbnail_url = d.thumbnail_url ∧ d'.tags = d.tags ∧
      d'.difficulty = d.difficulty ∧ d'.author = d.author ∧
      d'.bookmarks = d.bookmarks :=
  C9_frame_effect.1 "clip-1" 3 (dbOf [exampleDoc]) { ok := true }
    ((like_clip "clip-1" 3 (dbOf [exampleDoc])).2) rfl

/-- C10: the gateway addresses only the collection named by lowercasing the
model class name, `"systemclip"`: the outcome of every operation depends only
on that collection's contents, and no operation writes any other
collection. -/
theorem C10_single_collection :
    _collection_name "Systemclip" = "systemclip" ∧
    (∀ topic tag lim (db₁ db₂ : Db), db₁ "systemclip" = db₂ "systemclip" →
       list_clips topic tag lim db₁ = list_clips topic tag lim db₂) ∧
    (∀ p (db : Db) c, c ≠ "systemclip" → (create_clip p db).2 c = db c) ∧
    (∀ p (db₁ db₂ : Db), db₁ "systemclip" = db₂ "systemclip" →
       (create_clip p db₁).1 = (create_clip p db₂).1 ∧
       (create_clip p db₁).2 "systemclip" = (create_clip p db₂).2 "systemclip") ∧
    (∀ cid δ (db : Db) c, c ≠ "systemclip" → (like_clip cid δ db).2 c = db c) ∧
    (∀ cid δ (db₁ db₂ : Db), db₁ "systemclip" = db₂ "systemclip" →
       (like_clip cid δ db₁).1 = (like_clip cid δ db₂).1 ∧
       (like_clip cid δ db₁).2 "systemclip" = (like_clip cid δ db₂).2 "systemclip") ∧
    (∀ cid δ (db : Db) c, c ≠ "systemclip" → (bookmark_clip cid δ db).2 c = db c) ∧
    (∀ cid δ (db₁ db₂ : Db), db₁ "systemclip" = db₂ "systemclip" →
       (bookmark_clip cid δ db₁).1 = (bookmark_clip cid δ db₂).1 ∧
       (bookmark_clip cid δ db₁).2 "systemclip" = (bookmark_clip cid δ db₂).2 "systemclip") ∧
    (∀ (db : Db) c, c ≠ "systemclip" → (seed_clips db).2 c = db c) ∧
    (∀ (db₁ db₂ : Db), db₁ "systemclip" = db₂ "systemclip" →
       (seed_clips db₁).1 = (seed_clips db₂).1 ∧
       (seed_clips db₁).2 "systemclip" = (seed_clips db₂).2 "systemclip") := by
  have hname : _collection_name "Systemclip" = "systemclip" := collection_name_systemclip
  refine ⟨hname, ?_, ?_, ?_, ?_, ?_, ?_, ?_, ?_, ?_⟩
  · intro topic tag lim db₁ db₂ h12
    simp [list_clips, hname, h12]
  · intro p db c hc
    cases hres : validateSystemclip p with
    | error e => simp [create_clip, hres]
    | ok clip =>
      simp only [create_clip, hres, create_document]
      exact setDb_other _ _ _ _ (by rw [hname]; exact hc)
  · intro p db₁ db₂ h12
    cases hres : validateSystemclip p with
    | error e => exact ⟨by simp [create_clip, hres], by simp [create_clip, hres, h12]⟩
    | ok clip =>
      constructor
      · simp [create_clip, hres, create_document, hname, h12]
      · simp [create_clip, hres, create_document, hname, h12, setDb]
  · intro cid δ db c hc
    by_cases hv : isValidObjectId cid
    · by_cases h0 : (updateFirst (oidMatch cid) (incLikes δ)
          (db (_collection_name "Systemclip"))).1 = 0 <;>
        [skip; skip] <;>
        · simp only [like_clip]
          simp [hv, h0]
          exact setDb_other _ _ _ _ (by rw [hname]; exact hc)
    · by_cases h0 : (updateFirst (idFieldMatch cid) (incLikes δ)
          (db (_collection_name "Systemclip"))).1 = 0 <;>
        · simp only [like_clip]
          simp [hv, h0]
          exact setDb_other _ _ _ _ (by rw [hname]; exact hc)
  · intro cid δ db₁ db₂ h12
    by_cases hv : isValidObjectId cid
    · by_cases h0 : (updateFirst (oidMatch cid) (incLikes δ) (db₂ "systemclip")).1 = 0 <;>
        constructor <;> simp [like_clip, hv, hname, h12, h0, setDb]
    · by_cases h0 : (updateFirst (idFieldMatch cid) (incLikes δ) (db₂ "systemclip")).1 = 0 <;>
        constructor <;> simp [like_clip, hv, hname, h12, h0, setDb]
  · intro cid δ db c hc
    by_cases hv : isValidObjectId cid
    · by_cases h0 : (updateFirst (oidMatch cid) (incBookmarks δ)
          (db (_collection_name "Systemclip"))).1 = 0 <;>
        · simp only [bookmark_clip]
          simp [hv, h0]
          exact setDb_other _ _ _ _ (by rw [hname]; exact hc)
    · by_cases h0 : (updateFirst (idFieldMatch cid) (incBookmarks δ)
          (db (_collection_name "Systemclip"))).1 = 0 <;>
        · simp only [bookmark_clip]
          simp [hv, h0]
          exact setDb_other _ _ _ _ (by rw [hname]; exact hc)
  · intro cid δ db₁ db₂ h12
    by_cases hv : isValidObjectId cid
    · by_cases h0 : (updateFirst (oidMatch cid) (incBookmarks δ) (db₂ "systemclip")).1 = 0 <;>
        constructor <;> simp [bookmark_clip, hv, hname, h12, h0, setDb]
    · by_cases h0 : (updateFirst (idFieldMatch cid) (incBookmarks δ) (db₂ "systemclip")).1 = 0 <;>
        constructor <;> simp [bookmark_clip, hv, hname, h12, h0, setDb]
  · intro db c hc
    by_cases hpos : 0 < (db (_collection_name "Systemclip")).length
    · simp [seed_clips, hpos]
    · simp only [seed_clips]
      simp [hpos]
      exact setDb_other _ _ _ _ (by rw [hname]; exact hc)
  · intro db₁ db₂ h12
    by_cases hpos : 0 < (db₂ "systemclip").length <;>
      constructor <;> simp [seed_clips, hname, h12, hpos, setDb]

/-- C10 witness: a like and a seed leave the unrelated collection `"other"`
untouched, and listing ignores everything outside `"systemclip"`. -/
theorem C10_single_collection_witness :
    (like_clip "clip-1" 1 (dbOf [exampleDoc])).2 "other" = (dbOf [exampleDoc]) "other" ∧
    (seed_clips (dbOf [])).2 "other" = (dbOf []) "other" ∧
    list_clips none none 20 (dbOf [exampleDoc]) =
      list_clips none none 20 (setDb (dbOf [exampleDoc]) "other" [exampleDoc2]) :=
  ⟨C10_single_collection.2.2.2.2.1 "clip-1" 1 (dbOf [exampleDoc]) "other" (by decide),
   C10_single_collection.2.2.2.2.2.2.2.2.1 (dbOf []) "other" (by decide),
   C10_single_collection.2.1 none none 20 (dbOf [exampleDoc])
     (setDb (dbOf [exampleDoc]) "other" [exampleDoc2]) (by decide)⟩

/-- C5: List filtering: with a topic filter every returned clip's `topic`
equals the filter exactly; with a tag filter every returned clip's `tags`
contain the filter tag; at most `limit` items are returned, the query
parameter defaulting to 20; and every returned clip is a stored document with
the internal store identifier stripped. -/
theorem C5_list_filters :
    (∀ (t : String) (tag : Option String) (lim : Nat) (db : Db), t ≠ "" →
       ∀ c ∈ list_clips (some t) tag lim db, c.topic = t) ∧
    (∀ (topic : Option String) (g : String) (lim : Nat) (db : Db), g ≠ "" →
       ∀ c ∈ list_clips topic (some g) lim db, g ∈ c.tags) ∧
    (∀ (topic tag : Option String) (lim : Nat) (db : Db),
       (list_clips topic tag lim db).length ≤ lim) ∧
    list_clips_default_limit = 20 ∧
    (∀ (topic tag : Option String) (lim : Nat) (db : Db) (c : ClipOut),
       c ∈ list_clips topic tag lim db →
       ∃ d ∈ db (_collection_name "Systemclip"), c = sanitize d) := by
  refine ⟨?_, ?_, ?_, rfl, ?_⟩
  · intro t tag lim db ht c hc
    have htr : truthy (some t) = true := by
      simp only [truthy, Bool.not_eq_true']
      rw [Bool.eq_false_iff]
      intro hemp
      exact ht ((String.isEmpty_iff _).mp hemp)
    simp only [list_clips, htr, if_true] at hc
    obtain ⟨d, hd, rfl⟩ := List.mem_map.mp hc
    have hmatch := (List.mem_filter.mp (List.mem_of_mem_take hd)).2
    simp only [matchesFilt, Bool.and_eq_true] at hmatch
    have : d.topic = t := by simpa using hmatch.1
    simpa [sanitize] using this
  · intro topic g lim db hg c hc
    have htr : truthy (some g) = true := by
      simp only [truthy, Bool.not_eq_true']
      rw [Bool.eq_false_iff]
      intro hemp
      exact hg ((String.isEmpty_iff _).mp hemp)
    simp only [list_clips, htr, if_true] at hc
    obtain ⟨d, hd, rfl⟩ := List.mem_map.mp hc
    have hmatch := (List.mem_filter.mp (List.mem_of_mem_take hd)).2
    simp only [matchesFilt, Bool.and_eq_true] at hmatch
    have : g ∈ d.tags := by simpa using hmatch.2
    simpa [sanitize] using this
  · intro topic tag lim db
    simp only [list_clips, get_documents, List.length_map]
    exact List.length_take_le _ _
  · intro topic tag lim db c hc
    simp only [list_clips] at hc
    obtain ⟨d, hd, rfl⟩ := List.mem_map.mp hc
    exact ⟨d, (List.mem_filter.mp (List.mem_of_mem_take hd)).1, rfl⟩

/-- C5 witness: on the one-clip store, filtering by topic "OS" returns just
the sanitized example clip, whose topic is exactly "OS" and whose tags
contain "os". -/
theorem C5_list_filters_witness :
    (sanitize exampleDoc).topic = "OS" ∧
    "os" ∈ (sanitize exampleDoc).tags ∧
    (∃ d ∈ (dbOf [exampleDoc]) (_collection_name "Systemclip"),
       sanitize exampleDoc = sanitize d) :=
  ⟨C5_list_filters.1 "OS" none 20 (dbOf [exampleDoc]) (by decide)
     (sanitize exampleDoc) (by decide),
   C5_list_filters.2.1 none "os" 20 (dbOf [exampleDoc]) (by decide)
     (sanitize exampleDoc) (by decide),
   C5_list_filters.2.2.2.2 (some "OS") none 20 (dbOf [exampleDoc])
     (sanitize exampleDoc) (by decide)⟩

/-- C6: Create rejects a payload missing a required field (title, topic or
video_url), or with an invalid video/thumbnail URL, or with negative likes or
bookmarks, with a ValidationError (status 422, a 4xx), persisting nothing;
every payload that validates is persisted and answered 201 with the
store-generated identifier. -/
theorem C6_create_validation :
    (∀ (p : RawPayload) (db : Db),
       p.title = none ∨ p.topic = none ∨ p.video_url = none →
       ∃ e, create_clip p db = (.error (.validation e), db)) ∧
    (∀ (p : RawPayload) (u : String) (db : Db),
       p.video_url = some u → isValidHttpUrl u = false →
       ∃ e, create_clip p db = (.error (.validation e), db)) ∧
    (∀ (p : RawPayload) (u : String) (db : Db),
       p.thumbnail_url = some u → isValidHttpUrl u = false →
       ∃ e, create_clip p db = (.error (.validation e), db)) ∧
    (∀ (p : RawPayload) (x : Int) (db : Db),
       p.likes = some x → x < 0 →
       ∃ e, create_clip p db = (.error (.validation e), db)) ∧
    (∀ (p : RawPayload) (x : Int) (db : Db),
       p.bookmarks = some x → x < 0 →
       ∃ e, create_clip p db = (.error (.validation e), db)) ∧
    (∀ e, (ApiError.validation e).status = 422 ∧
       400 ≤ (ApiError.validation e).status ∧ (ApiError.validation e).status < 500) ∧
    (∀ (p : RawPayload) (clip : Systemclip) (db : Db),
       validateSystemclip p = .ok clip →
       create_clip p db =
         (.ok { status := 201,
                id := genId (db (_collection_name "Systemclip")).length },
          setDb db (_collection_name "Systemclip")
            ((db (_collection_name "Systemclip")) ++
              [toDoc clip (genId (db (_collection_name "Systemclip")).length)]))) := by
  refine ⟨?_, ?_, ?_, ?_, ?_, fun e => ⟨rfl, by show (400:Nat) ≤ 422; decide, by show (422:Nat) < 500; decide⟩, ?_⟩
  · intro p db hmiss
    obtain ⟨e, he⟩ := validateSystemclip_error_of_bad p
      (hmiss.imp id (Or.imp id Or.inl))
    exact ⟨e, by simp [create_clip, he]⟩
  · intro p u db hu hbad
    obtain ⟨e, he⟩ := validateSystemclip_error_of_bad p
      (Or.inr (Or.inr (Or.inr (Or.inl ⟨u, hu, hbad⟩))))
    exact ⟨e, by simp [create_clip, he]⟩
  · intro p u db hu hbad
    obtain ⟨e, he⟩ := validateSystemclip_error_of_bad p
      (Or.inr (Or.inr (Or.inr (Or.inr (Or.inl ⟨u, hu, hbad⟩)))))
    exact ⟨e, by simp [create_clip, he]⟩
  · intro p x db hx hneg
    obtain ⟨e, he⟩ := validateSystemclip_error_of_bad p
      (Or.inr (Or.inr (Or.inr (Or.inr (Or.inr (Or.inl ⟨x, hx, hneg⟩))))))
    exact ⟨e, by simp [create_clip, he]⟩
  · intro p x db hx hneg
    obtain ⟨e, he⟩ := validateSystemclip_error_of_bad p
      (Or.inr (Or.inr (Or.inr (Or.inr (Or.inr (Or.inr ⟨x, hx, hneg⟩))))))
    exact ⟨e, by simp [create_clip, he]⟩
  · intro p clip db hok
    simp [create_clip, hok, create_document]

/-- C6 witness: the concrete payload missing `video_url` is rejected with the
store untouched; the fully valid payload is persisted and answered 201. -/
theorem C6_create_validation_witness :
    (∃ e, create_clip badPayload (dbOf []) = (.error (.validation e), dbOf [])) ∧
    create_clip goodPayload (dbOf []) =
      (.ok { status := 201,
             id := genId ((dbOf []) (_collection_name "Systemclip")).length },
       setDb (dbOf []) (_collection_name "Systemclip")
         (((dbOf []) (_collection_name "Systemclip")) ++
           [toDoc goodClip (genId ((dbOf []) (_collection_name "Systemclip")).length)])) :=
  ⟨C6_create_validation.1 badPayload (dbOf []) (Or.inr (Or.inr rfl)),
   C6_create_validation.2.2.2.2.2.2 goodPayload goodClip (dbOf []) rfl⟩

end SysTok
